import Mathlib

/-!
Verification of the filter pipeline and cross-view selection logic of
`restaurant_app.py` (a Streamlit restaurant-finder app), shallowly embedded
in Lean 4.

The embedding follows the source script line by line:
* `applyFilters` embeds the filter block (lines 80-88): a copy of the
  dataframe, an optional cuisine equality filter (skipped when the
  selectbox holds the sentinel "All"), a rating filter `Rating >= min_rating`,
  and an optional price equality filter (sentinel "All").
* `handleMapClick` embeds lines 140-150: inside the `len(filtered_df) > 0`
  guard, if the plotly click data holds at least one point, the selection is
  overwritten with `filtered_df.iloc[pointIndex]['Name']`; `iloc` on an
  out-of-range index raises `IndexError`, modelled with `Except`.
* `handleTableSelect` embeds lines 158-180: the analogous handler for the
  dataframe row selection, executed after the map handler (the script runs
  column 1 before column 2).
* `renderPass` chains the two handlers as one script run for fixed criteria;
  `runTrace` iterates render passes over a sequence of criteria/event steps.
* `viewShowsDetail` embeds the read guard on line 183:
  `if st.session_state.selected_restaurant and st.session_state.selected_restaurant in filtered_df['Name'].values`.
* `selected_info` embeds line 184.

Ratings are exact decimals in the source (4.5, 4.2, ...), modelled as `ℚ`.
-/

deriving instance DecidableEq for Except

namespace RestaurantApp

/-- A venue record with the columns the core logic reads: `Name`, `Cuisine`,
`Rating`, `Price Range`. Coordinates and contact columns are opaque to the
filter and selection logic and are omitted. -/
structure Venue where
  name : String
  cuisine : String
  rating : ℚ
  priceRange : String
deriving DecidableEq, Repr

/-- The five sample rows of `restaurants_data` (lines 15-53). -/
def restaurants : List Venue :=
  [⟨"The Golden Spoon", "American Fine Dining", mkRat 45 10, "$$$"⟩,
   ⟨"Bella Vista Italian", "Italian", mkRat 42 10, "$$"⟩,
   ⟨"Sakura Sushi Bar", "Japanese", mkRat 47 10, "$$$"⟩,
   ⟨"Taco Libre", "Mexican", mkRat 41 10, "$"⟩,
   ⟨"The Coffee House", "Cafe", mkRat 43 10, "$$"⟩]

/-- The filter block, lines 80-88: `filtered_df = df.copy()`, then a cuisine
equality filter unless the cuisine selectbox is "All", then the rating filter
`Rating >= min_rating`, then a price equality filter unless the price
selectbox is "All". Boolean-mask filtering on a dataframe keeps row order,
so each step is a `List.filter`. -/
def applyFilters (df : List Venue) (selected_cuisine : String) (min_rating : ℚ)
    (selected_price : String) : List Venue :=
  let f1 := if selected_cuisine ≠ "All"
            then df.filter (fun v => v.cuisine == selected_cuisine) else df
  let f2 := f1.filter (fun v => decide (min_rating ≤ v.rating))
  if selected_price ≠ "All"
  then f2.filter (fun v => v.priceRange == selected_price) else f2

/-- The conjunction of the three row predicates of the filter block, as a
single boolean predicate on a venue. -/
def keepVenue (selected_cuisine : String) (min_rating : ℚ)
    (selected_price : String) (v : Venue) : Bool :=
  (selected_cuisine == "All" || v.cuisine == selected_cuisine)
  && decide (min_rating ≤ v.rating)
  && (selected_price == "All" || v.priceRange == selected_price)

/-- The same three filters applied in the reverse order (price, then rating,
then cuisine), to state that the order of application is immaterial. -/
def applyFiltersPermuted (df : List Venue) (selected_cuisine : String)
    (min_rating : ℚ) (selected_price : String) : List Venue :=
  let f1 := if selected_price ≠ "All"
            then df.filter (fun v => v.priceRange == selected_price) else df
  let f2 := f1.filter (fun v => decide (min_rating ≤ v.rating))
  if selected_cuisine ≠ "All"
  then f2.filter (fun v => v.cuisine == selected_cuisine) else f2

/-- The interaction inputs of one script run: the `points` list of the plotly
map selection stored in session state under "restaurant_map" (each point
carrying its `pointIndex`), and the `rows` list of the dataframe selection
stored under "restaurant_table". -/
structure RenderInput where
  click_points : List Nat
  table_rows : List Nat
deriving DecidableEq, Repr

/-- Lines 140-150: inside the `if len(filtered_df) > 0` block, if
`click_data` is non-empty the selection is overwritten with
`filtered_df.iloc[clicked_point['pointIndex']]['Name']`. An index outside
the filtered frame makes `iloc` raise `IndexError`. When the filtered frame
is empty the whole block (including the click read) is skipped. -/
def handleMapClick (filtered : List Venue) (click_points : List Nat)
    (sel : Option String) : Except String (Option String) :=
  if filtered.length > 0 then
    match click_points with
    | [] => .ok sel
    | i :: _ =>
      match filtered[i]? with
      | some v => .ok (some v.name)
      | none => .error "IndexError"
  else .ok sel

/-- Lines 158-180: inside the `if len(filtered_df) > 0` block of column 2,
if the table selection has a row the selection is overwritten with
`filtered_df.iloc[selected_row]['Name']`; again `iloc` raises on an
out-of-range row. -/
def handleTableSelect (filtered : List Venue) (table_rows : List Nat)
    (sel : Option String) : Except String (Option String) :=
  if filtered.length > 0 then
    match table_rows with
    | [] => .ok sel
    | j :: _ =>
      match filtered[j]? with
      | some v => .ok (some v.name)
      | none => .error "IndexError"
  else .ok sel

/-- One script run over an already-filtered frame: column 1's map-click
handler runs first, then column 2's table-selection handler; an exception in
the first aborts the run before the second executes. -/
def renderPass (filtered : List Venue) (inp : RenderInput)
    (sel : Option String) : Except String (Option String) :=
  match handleMapClick filtered inp.click_points sel with
  | .error e => .error e
  | .ok sel1 => handleTableSelect filtered inp.table_rows sel1

/-- One step of a session: the criteria chosen in the sidebar for this run
together with the interaction inputs present in session state. -/
structure Step where
  selected_cuisine : String
  min_rating : ℚ
  selected_price : String
  input : RenderInput
deriving DecidableEq, Repr

/-- A session: successive script runs over the same venue store, each
refiltering with its own criteria and then processing its events. The
selection starts at `none` (lines 143-144 initialise it to `None`). -/
def runTrace (df : List Venue) (steps : List Step) (sel : Option String) :
    Except String (Option String) :=
  match steps with
  | [] => .ok sel
  | s :: rest =>
    match renderPass (applyFilters df s.selected_cuisine s.min_rating
        s.selected_price) s.input sel with
    | .error e => .error e
    | .ok sel1 => runTrace df rest sel1

/-- Line 183, the view's read of the selection: the detail card is rendered
iff the filtered frame is non-empty (outer guard, line 158), the stored
selection is truthy (not `None`, not the empty string), and the stored name
occurs in `filtered_df['Name'].values`. -/
def viewShowsDetail (filtered : List Venue) (sel : Option String) : Bool :=
  if filtered.length > 0 then
    match sel with
    | none => false
    | some name => !name.isEmpty && filtered.any (fun v => v.name == name)
  else false

/-- Line 184: `filtered_df[filtered_df['Name'] == selected].iloc[0]`, the
first row of the filtered frame whose name equals the stored selection. -/
def selected_info (filtered : List Venue) (name : String) : Option Venue :=
  (filtered.filter (fun v => v.name == name)).head?

theorem applyFilters_eq_filter (df : List Venue) (c : String) (r : ℚ)
    (p : String) : applyFilters df c r p = df.filter (keepVenue c r p) := by
  by_cases hc : c = "All" <;> by_cases hp : p = "All" <;>
    simp only [applyFilters, hc, hp, ne_eq, not_true_eq_false, if_false,
      not_false_eq_true, if_true, List.filter_filter] <;>
    refine List.filter_congr (fun v _ => ?_)
  · simp [keepVenue, hc, hp]
  · have hp' : (p == "All") = false := beq_eq_false_iff_ne.mpr hp
    simp [keepVenue, hc, hp', Bool.and_comm]
  · have hc' : (c == "All") = false := beq_eq_false_iff_ne.mpr hc
    simp [keepVenue, hc', hp, Bool.and_comm]
  · have hc' : (c == "All") = false := beq_eq_false_iff_ne.mpr hc
    have hp' : (p == "All") = false := beq_eq_false_iff_ne.mpr hp
    simp [keepVenue, hc', hp', Bool.and_comm, Bool.and_assoc,
      Bool.and_left_comm]

theorem applyFiltersPermuted_eq_filter (df : List Venue) (c : String) (r : ℚ)
    (p : String) :
    applyFiltersPermuted df c r p = df.filter (keepVenue c r p) := by
  by_cases hc : c = "All" <;> by_cases hp : p = "All" <;>
    simp only [applyFiltersPermuted, hc, hp, ne_eq, not_true_eq_false,
      if_false, not_false_eq_true, if_true, List.filter_filter] <;>
    refine List.filter_congr (fun v _ => ?_)
  · simp [keepVenue, hc, hp]
  · have hp' : (p == "All") = false := beq_eq_false_iff_ne.mpr hp
    simp [keepVenue, hc, hp', Bool.and_comm]
  · have hc' : (c == "All") = false := beq_eq_false_iff_ne.mpr hc
    simp [keepVenue, hc', hp, Bool.and_comm]
  · have hc' : (c == "All") = false := beq_eq_false_iff_ne.mpr hc
    have hp' : (p == "All") = false := beq_eq_false_iff_ne.mpr hp
    simp [keepVenue, hc', hp', Bool.and_comm, Bool.and_assoc,
      Bool.and_left_comm]

theorem mem_applyFilters (df : List Venue) (c : String) (r : ℚ) (p : String)
    (v : Venue) :
    v ∈ applyFilters df c r p ↔
      v ∈ df ∧ (c = "All" ∨ v.cuisine = c) ∧ r ≤ v.rating
        ∧ (p = "All" ∨ v.priceRange = p) := by
  rw [applyFilters_eq_filter, List.mem_filter]
  simp [keepVenue, and_assoc]

/-- Claim C5: a venue is in the filtered output iff (no cuisine constraint,
i.e. the sentinel "All", or its cuisine equals the chosen one), its rating is
at least the minimum rating (inclusive), and (no price constraint or its
price tier equals the chosen one); moreover applying the three constraints
in the reverse order yields the identical output list, so application order
affects neither membership nor ordering. -/
theorem C5_conjunctive_filter (df : List Venue) (c : String) (r : ℚ)
    (p : String) :
    (∀ v, v ∈ applyFilters df c r p ↔
      v ∈ df ∧ (c = "All" ∨ v.cuisine = c) ∧ r ≤ v.rating
        ∧ (p = "All" ∨ v.priceRange = p))
    ∧ applyFilters df c r p = applyFiltersPermuted df c r p :=
  ⟨fun v => mem_applyFilters df c r p v,
   by rw [applyFilters_eq_filter, applyFiltersPermuted_eq_filter]⟩

/-- Claim C6: the filtered output is a subsequence of the input list — it
keeps the venue store's original relative order and is never re-sorted. -/
theorem C6_order_preserved (df : List Venue) (c : String) (r : ℚ)
    (p : String) : List.Sublist (applyFilters df c r p) df := by
  rw [applyFilters_eq_filter]
  exact List.filter_sublist df

/-- Claim C7: the filter pipeline is idempotent — applying it twice with the
same criteria equals applying it once. -/
theorem C7_idempotent (df : List Venue) (c : String) (r : ℚ) (p : String) :
    applyFilters (applyFilters df c r p) c r p = applyFilters df c r p := by
  rw [applyFilters_eq_filter, applyFilters_eq_filter df,
    List.filter_filter]
  exact List.filter_congr (fun v _ => by rw [Bool.and_self])

/-- Claim C8: tightening any single criterion never increases the size of
the filtered set: raising the minimum rating, narrowing the cuisine from
"All" to any specific value, or narrowing the price from "All" to any
specific value. -/
theorem C8_monotone (df : List Venue) (c : String) (r r' : ℚ) (p : String)
    (h : r ≤ r') :
    (applyFilters df c r' p).length ≤ (applyFilters df c r p).length
    ∧ (applyFilters df c r p).length ≤ (applyFilters df "All" r p).length
    ∧ (applyFilters df c r p).length ≤ (applyFilters df c r "All").length := by
  refine ⟨?_, ?_, ?_⟩ <;>
    · rw [applyFilters_eq_filter, applyFilters_eq_filter]
      refine List.Sublist.length_le (List.monotone_filter_right df ?_)
      intro v hv
      simp only [keepVenue, Bool.and_eq_true, Bool.or_eq_true, beq_iff_eq,
        decide_eq_true_eq] at hv ⊢
      refine ⟨⟨?_, ?_⟩, ?_⟩ <;>
        first
        | exact hv.1.1
        | exact hv.1.2
        | exact hv.2
        | exact le_trans h hv.1.2
        | simp

/-- Witness for C8 at a concrete instance: the sample data with cuisine
"Italian", price tier the two-dollar symbol, and the minimum rating raised
from 1 to 4.2. -/
theorem C8_monotone_witness :
    (applyFilters restaurants "Italian" (mkRat 42 10) "$$").length
      ≤ (applyFilters restaurants "Italian" 1 "$$").length
    ∧ (applyFilters restaurants "Italian" 1 "$$").length
      ≤ (applyFilters restaurants "All" 1 "$$").length
    ∧ (applyFilters restaurants "Italian" 1 "$$").length
      ≤ (applyFilters restaurants "Italian" 1 "All").length :=
  C8_monotone restaurants "Italian" 1 (mkRat 42 10) "$$" (by decide)

theorem get?_pos_length {filtered : List Venue} {i : Nat} {v : Venue}
    (hi : filtered[i]? = some v) : 0 < filtered.length := by
  rcases filtered with _ | ⟨a, l⟩
  · simp at hi
  · simp

theorem handleMapClick_ok_isSome (filtered : List Venue) (cps : List Nat)
    (name : String) (s' : Option String)
    (h : handleMapClick filtered cps (some name) = .ok s') :
    s'.isSome = true := by
  unfold handleMapClick at h
  split at h
  · split at h
    · cases h; rfl
    · split at h
      · cases h; rfl
      · exact Except.noConfusion h
  · cases h; rfl

theorem handleTableSelect_ok_isSome (filtered : List Venue) (rows : List Nat)
    (name : String) (s' : Option String)
    (h : handleTableSelect filtered rows (some name) = .ok s') :
    s'.isSome = true := by
  unfold handleTableSelect at h
  split at h
  · split at h
    · cases h; rfl
    · split at h
      · cases h; rfl
      · exact Except.noConfusion h
  · cases h; rfl

theorem renderPass_ok_isSome (filtered : List Venue) (inp : RenderInput)
    (name : String) (s' : Option String)
    (h : renderPass filtered inp (some name) = .ok s') :
    s'.isSome = true := by
  unfold renderPass at h
  cases hm : handleMapClick filtered inp.click_points (some name) with
  | error e => rw [hm] at h; exact Except.noConfusion h
  | ok sel1 =>
    rw [hm] at h
    have h1 := handleMapClick_ok_isSome filtered inp.click_points name sel1 hm
    cases sel1 with
    | none => exact Bool.noConfusion h1
    | some n1 => exact handleTableSelect_ok_isSome filtered inp.table_rows n1 s' h

theorem runTrace_ok_isSome (df : List Venue) (steps : List Step) :
    ∀ (name : String) (out : Option String),
      runTrace df steps (some name) = .ok out → out.isSome = true := by
  induction steps with
  | nil =>
    intro name out h
    unfold runTrace at h
    cases h; rfl
  | cons s rest ih =>
    intro name out h
    unfold runTrace at h
    cases hr : renderPass (applyFilters df s.selected_cuisine s.min_rating
        s.selected_price) s.input (some name) with
    | error e => rw [hr] at h; exact Except.noConfusion h
    | ok sel1 =>
      rw [hr] at h
      have h1 := renderPass_ok_isSome _ s.input name sel1 hr
      cases sel1 with
      | none => exact Bool.noConfusion h1
      | some n1 => exact ih n1 out h

/-- Counterexample to claim C1 as stated: click the marker of "Taco Libre"
(index 3, rating 4.1) under the loosest criteria, then raise the minimum
rating to 4.2. At the view's read point the selection still holds
"Taco Libre", which is not a member of the new filtered set — the state is
not reset to `None` on the criteria change. -/
theorem C1_counterexample :
    runTrace restaurants
      [⟨"All", 1, "All", ⟨[3], []⟩⟩, ⟨"All", mkRat 42 10, "All", ⟨[], []⟩⟩]
      none = .ok (some "Taco Libre")
    ∧ ¬((some "Taco Libre" : Option String) = none
        ∨ "Taco Libre" ∈
            (applyFilters restaurants "All" (mkRat 42 10) "All").map
              Venue.name) := by
  exact ⟨by decide, by decide⟩

/-- Claim C1 as amended: the selection state is never reset to `None` by a
criteria change, so it can retain an id outside the new filtered set; the
invariant holds only at the render of the detail card, which the view guards
at its read site — whenever the detail card is shown, the held id is a
member of the current filtered set. -/
theorem C1_selection_guarded_at_read (filtered : List Venue)
    (sel : Option String) (h : viewShowsDetail filtered sel = true) :
    ∃ name, sel = some name ∧ name ∈ filtered.map Venue.name := by
  unfold viewShowsDetail at h
  by_cases hl : filtered.length > 0
  · rw [if_pos hl] at h
    cases sel with
    | none => exact Bool.noConfusion h
    | some name =>
      refine ⟨name, rfl, ?_⟩
      simp only [Bool.and_eq_true, List.any_eq_true, beq_iff_eq] at h
      obtain ⟨-, v, hv, hvn⟩ := h
      exact List.mem_map.mpr ⟨v, hv, hvn⟩
  · rw [if_neg hl] at h
    exact Bool.noConfusion h

/-- Witness for the amended C1: the detail card for "Taco Libre" is shown
against the unfiltered sample data, and indeed "Taco Libre" is a member. -/
theorem C1_selection_guarded_at_read_witness :
    ∃ name, (some "Taco Libre" : Option String) = some name
      ∧ name ∈ restaurants.map Venue.name :=
  C1_selection_guarded_at_read restaurants (some "Taco Libre") (by decide)

/-- Counterexample to claim C2 as stated: clicking marker 0 ("The Golden
Spoon") twice leaves the state `Selected("The Golden Spoon")`, not
`Unselected` — the handler unconditionally overwrites the selection with the
clicked name and implements no toggle. -/
theorem C2_counterexample :
    runTrace restaurants
      [⟨"All", 1, "All", ⟨[0], []⟩⟩, ⟨"All", 1, "All", ⟨[0], []⟩⟩] none
      = .ok (some "The Golden Spoon")
    ∧ (Except.ok (some "The Golden Spoon") : Except String (Option String))
        ≠ .ok none := by
  exact ⟨by decide, by decide⟩

/-- Claim C2 as amended: a second click that resolves to the already
selected venue re-selects it — the selection state remains
`Selected(v.id)`; there is no toggle-to-unselected. -/
theorem C2_reclick_stays_selected (filtered : List Venue) (i : Nat)
    (v : Venue) (hi : filtered[i]? = some v) :
    renderPass filtered ⟨[i], []⟩ (some v.name) = .ok (some v.name) := by
  have hlen : 0 < filtered.length := get?_pos_length hi
  unfold renderPass handleMapClick handleTableSelect
  simp [hlen, hi]

/-- Witness for the amended C2: re-clicking marker 0 while "The Golden
Spoon" is selected keeps it selected. -/
theorem C2_reclick_stays_selected_witness :
    renderPass restaurants ⟨[0], []⟩
      (some (Venue.mk "The Golden Spoon" "American Fine Dining"
        (mkRat 45 10) "$$$").name)
      = .ok (some (Venue.mk "The Golden Spoon" "American Fine Dining"
        (mkRat 45 10) "$$$").name) :=
  C2_reclick_stays_selected restaurants 0
    (Venue.mk "The Golden Spoon" "American Fine Dining" (mkRat 45 10) "$$$")
    (by decide)

/-- Counterexample to claim C3 as stated: with "Taco Libre" selected, a
render pass whose click data is empty (empty-area click: the plotly
selection carries no points) leaves the selection unchanged at
`Selected("Taco Libre")` instead of resetting it to `Unselected` — the
`if click_data:` branch simply does nothing. -/
theorem C3_counterexample :
    renderPass (applyFilters restaurants "All" 1 "All") ⟨[], []⟩
      (some "Taco Libre") = .ok (some "Taco Libre")
    ∧ (Except.ok (some "Taco Libre") : Except String (Option String))
        ≠ .ok none := by
  exact ⟨by decide, by decide⟩

/-- Claim C3 as amended: an empty-area click (no point in the click data and
no selected table row) is a no-op — the prior selection state is preserved
verbatim, whatever it was. -/
theorem C3_empty_click_is_noop (filtered : List Venue) (sel : Option String) :
    renderPass filtered ⟨[], []⟩ sel = .ok sel := by
  unfold renderPass handleMapClick handleTableSelect
  by_cases hl : filtered.length > 0 <;> simp [hl]

/-- Counterexample to claim C4 as stated: a click event carrying the stale
point index 5 against the 5-row filtered frame makes
`filtered_df.iloc[5]` raise `IndexError` — the reconciler does not map the
unresolvable index to `Unselected`. -/
theorem C4_counterexample :
    renderPass (applyFilters restaurants "All" 1 "All") ⟨[5], []⟩
      (some "Sakura Sushi Bar") = .error "IndexError" := by
  decide

/-- Claim C4 as amended: the filter pipeline itself is total, but the click
handler is not — whenever the filtered set is non-empty and the click event
carries an index outside it, the render pass raises `IndexError` instead of
transitioning to `Unselected`. -/
theorem C4_stale_index_raises (filtered : List Venue) (i : Nat)
    (sel : Option String) (hne : 0 < filtered.length)
    (hi : filtered.length ≤ i) :
    renderPass filtered ⟨[i], []⟩ sel = .error "IndexError" := by
  have hg : filtered[i]? = none := List.getElem?_eq_none hi
  unfold renderPass handleMapClick handleTableSelect
  simp [hne, hg]

/-- Witness for the amended C4: index 7 against the full 5-row sample set
raises. -/
theorem C4_stale_index_raises_witness :
    renderPass restaurants ⟨[7], []⟩ none = .error "IndexError" :=
  C4_stale_index_raises restaurants 7 none (by decide) (by decide)

/-- Claim C9: once the selection holds some venue name, no sequence of
render passes (criteria changes, map clicks, table selections) ever sets it
back to `None`: every successful trace started from a selected state ends in
a selected state. The only `None` assignment is the first initialisation. -/
theorem C9_selection_never_cleared (df : List Venue) (steps : List Step)
    (name : String) (out : Option String)
    (h : runTrace df steps (some name) = .ok out) : out.isSome = true :=
  runTrace_ok_isSome df steps name out h

/-- Witness for C9: a concrete two-step trace (a click on marker 2, then a
criteria change with no events) started from "Taco Libre" ends selected. -/
theorem C9_selection_never_cleared_witness :
    (some "Sakura Sushi Bar" : Option String).isSome = true :=
  C9_selection_never_cleared restaurants
    [⟨"All", 1, "All", ⟨[2], []⟩⟩, ⟨"Japanese", 1, "All", ⟨[], []⟩⟩]
    "Taco Libre" (some "Sakura Sushi Bar") (by decide)

/-- Claim C10: when one render pass carries both a map click (resolving to
venue `vi`) and a table row selection (resolving to venue `vj`), the final
selection is the table's venue: the map handler (column 1) runs first and
the table handler (column 2) overwrites its assignment. -/
theorem C10_table_overrides_map (filtered : List Venue) (i j : Nat)
    (ci ti : List Nat) (sel : Option String) (vi vj : Venue)
    (hi : filtered[i]? = some vi) (hj : filtered[j]? = some vj) :
    renderPass filtered ⟨i :: ci, j :: ti⟩ sel = .ok (some vj.name) := by
  have hlen : 0 < filtered.length := get?_pos_length hi
  unfold renderPass handleMapClick handleTableSelect
  simp [hlen, hi, hj]

/-- Witness for C10: a pass with a map click on marker 0 and a table
selection of row 2 ends with row 2's venue ("Sakura Sushi Bar") selected. -/
theorem C10_table_overrides_map_witness :
    renderPass restaurants ⟨[0], [2]⟩ none
      = .ok (some (Venue.mk "Sakura Sushi Bar" "Japanese" (mkRat 47 10)
          "$$$").name) :=
  C10_table_overrides_map restaurants 0 2 [] [] none
    (Venue.mk "The Golden Spoon" "American Fine Dining" (mkRat 45 10) "$$$")
    (Venue.mk "Sakura Sushi Bar" "Japanese" (mkRat 47 10) "$$$")
    (by decide) (by decide)

end RestaurantApp
